import Mathlib

/-!
Verification of the kuliso pointer/gyroscope effect library.

The JavaScript sources are shallowly embedded over exact rationals:
JS numbers become `ℚ`, nullable values become `Option`, and the
side-effecting controller loops become pure functions that return the
list of effect invocations they would perform.
-/

namespace Kuliso

/-- Embedding of `clamp` from `src/utilities.js`:
`Math.min(Math.max(min, value), max)`. -/
def clamp (lo hi value : ℚ) : ℚ := min (max lo value) hi

/-- Embedding of the JS expression `a || b` on numbers: the right operand is
used exactly when the left one is falsy, i.e. equal to 0. -/
def jsOr (a b : ℚ) : ℚ := if a = 0 then b else a

/-- Idealization of `Number.prototype.toPrecision(4)` on exact rationals:
the magnitude is rounded to 4 significant decimal digits, with ties rounded
up in magnitude, and the sign is reapplied, as in the ECMAScript algorithm. -/
def toPrecision4 (q : ℚ) : ℚ :=
  if q = 0 then 0
  else
    (if q < 0 then -1 else 1) *
      ((round (|q| * (10 : ℚ) ^ ((3 : ℤ) - Int.log 10 |q|)) : ℚ) /
        (10 : ℚ) ^ ((3 : ℤ) - Int.log 10 |q|))

theorem clamp_nonneg (v : ℚ) : 0 ≤ clamp 0 1 v :=
  le_min (le_max_left 0 v) zero_le_one

theorem clamp_le_one (v : ℚ) : clamp 0 1 v ≤ 1 :=
  min_le_right _ _

theorem clamp_of_nonpos {v : ℚ} (h : v ≤ 0) : clamp 0 1 v = 0 := by
  unfold clamp
  rw [max_eq_left h, min_eq_left zero_le_one]

theorem clamp_of_one_le {v : ℚ} (h : 1 ≤ v) : clamp 0 1 v = 1 := by
  unfold clamp
  rw [max_eq_right (zero_le_one.trans h), min_eq_right h]

theorem clamp_of_mem {v : ℚ} (h0 : 0 ≤ v) (h1 : v ≤ 1) : clamp 0 1 v = v := by
  unfold clamp
  rw [max_eq_right h0, min_eq_left h1]

theorem toPrecision4_zero : toPrecision4 0 = 0 := by
  simp [toPrecision4]

theorem toPrecision4_nonneg {q : ℚ} (h : 0 ≤ q) : 0 ≤ toPrecision4 q := by
  unfold toPrecision4
  by_cases hq : q = 0
  · simp [hq]
  · rw [if_neg hq, if_neg (not_lt.mpr h), one_mul]
    have hqpos : 0 < q := lt_of_le_of_ne h (Ne.symm hq)
    apply div_nonneg
    · have hx : (0 : ℚ) ≤ |q| * (10 : ℚ) ^ ((3 : ℤ) - Int.log 10 |q|) := by positivity
      have hr : (0 : ℤ) ≤ round (|q| * (10 : ℚ) ^ ((3 : ℤ) - Int.log 10 |q|)) := by
        rw [round_eq]
        apply Int.floor_nonneg.mpr
        linarith
      exact_mod_cast hr
    · positivity

theorem toPrecision4_le_one {q : ℚ} (h0 : 0 ≤ q) (h1 : q ≤ 1) : toPrecision4 q ≤ 1 := by
  unfold toPrecision4
  by_cases hq : q = 0
  · simp [hq]
  · rw [if_neg hq, if_neg (not_lt.mpr h0), one_mul]
    have hqpos : 0 < q := lt_of_le_of_ne h0 (Ne.symm hq)
    have habs : |q| = q := abs_of_pos hqpos
    set s : ℤ := (3 : ℤ) - Int.log 10 |q| with hs
    have hlog : Int.log 10 |q| ≤ 0 := by
      rw [habs, Int.log_of_right_le_one _ h1]
      exact neg_nonpos_of_nonneg (Int.natCast_nonneg _)
    have hsnn : 0 ≤ s := by omega
    obtain ⟨k, hk⟩ : ∃ k : ℕ, s = (k : ℤ) := ⟨s.toNat, (Int.toNat_of_nonneg hsnn).symm⟩
    have hpow : ((10 ^ k : ℤ) : ℚ) = (10 : ℚ) ^ s := by
      rw [hk]
      push_cast
      rw [zpow_natCast]
    have hppos : (0 : ℚ) < (10 : ℚ) ^ s := by positivity
    rw [div_le_one hppos]
    have hX : |q| * (10 : ℚ) ^ s ≤ (10 : ℚ) ^ s := by
      rw [habs]
      nlinarith
    have hfl : round (|q| * (10 : ℚ) ^ s) ≤ (10 : ℤ) ^ k := by
      rw [round_eq]
      have h2 : |q| * (10 : ℚ) ^ s + 1 / 2 ≤ ((10 ^ k : ℤ) : ℚ) + 1 / 2 := by
        rw [hpow]; linarith
      calc ⌊|q| * (10 : ℚ) ^ s + 1 / 2⌋ ≤ ⌊((10 ^ k : ℤ) : ℚ) + 1 / 2⌋ :=
            Int.floor_le_floor h2
        _ = 10 ^ k + ⌊(1 / 2 : ℚ)⌋ := Int.floor_int_add _ _
        _ = 10 ^ k := by norm_num
    calc ((round (|q| * (10 : ℚ) ^ s) : ℤ) : ℚ) ≤ ((10 ^ k : ℤ) : ℚ) := by exact_mod_cast hfl
      _ = (10 : ℚ) ^ s := hpow

theorem toPrecision4_one : toPrecision4 1 = 1 := by
  unfold toPrecision4
  norm_num

theorem intLog_ten_half : Int.log 10 ((1 : ℚ) / 2) = -1 := by
  rw [Int.log_of_right_le_one _ (by norm_num)]
  have h1 : ((1 : ℚ) / 2)⁻¹ = (2 : ℚ) := by norm_num
  rw [h1]
  have h2 : ⌈(2 : ℚ)⌉₊ = 2 := by
    exact_mod_cast Nat.ceil_intCast (α := ℚ) 2
  rw [h2]
  have h3 : Nat.clog 10 2 = 1 := by
    rw [Nat.clog_of_two_le (by norm_num) (by norm_num)]
    norm_num [Nat.clog_of_right_le_one]
  rw [h3]
  norm_num

theorem toPrecision4_half : toPrecision4 ((1 : ℚ) / 2) = 1 / 2 := by
  unfold toPrecision4
  rw [if_neg (by norm_num), if_neg (by norm_num)]
  have habs : |((1 : ℚ) / 2)| = 1 / 2 := by norm_num [abs_of_pos]
  rw [habs, intLog_ten_half]
  have h4 : ((3 : ℤ) - -1) = (4 : ℤ) := by norm_num
  rw [h4]
  have hpow : ((10 : ℚ) ^ (4 : ℤ)) = 10000 := by norm_num
  rw [hpow]
  have hm : ((1 : ℚ) / 2 * 10000) = 5000 := by norm_num
  rw [hm]
  have hr : round ((5000 : ℚ)) = 5000 := by simp
  rw [hr]
  norm_num

/-- Layout rectangle as produced by `getRect` in `src/utilities.js`. -/
structure Rect where
  left : ℚ
  top : ℚ
  width : ℚ
  height : ℚ
deriving DecidableEq

/-- The size part of the hit-area root, `config.rect` in `src/Pointer.js`. -/
structure RectSize where
  width : ℚ
  height : ℚ
deriving DecidableEq

/-- The module-level `scrollPosition` object of the pointer controller. -/
structure ScrollPosition where
  x : ℚ
  y : ℚ
deriving DecidableEq

/-- The mutable progress object of a pointer Driver: raw coordinates,
per-sample velocity, and the optional activity flag (`none` while the
`active` key has never been written). -/
structure Progress where
  x : ℚ
  y : ℚ
  vx : ℚ
  vy : ℚ
  active : Option Bool := none
deriving DecidableEq

/-- A configured scene. `effect` only records presence of the callback
(`none` models a scene object missing its effect); `transform` models the
closure pair installed by the controller, which captures the rect returned
by `getRect(scene.target)`; `target` holds that rect when the scene has a
target element. -/
structure Scene where
  effect : Option Unit := some ()
  disabled : Bool := false
  target : Option Rect := none
  centeredToTarget : Bool := false
  transform : Option Rect := none
  destroyHook : Bool := false
deriving DecidableEq

/-- Pointer driver configuration (the fields the controller tick reads). -/
structure PointerConfig where
  scenes : List Scene
  rect : RectSize
  allowActiveEvent : Bool := false
deriving DecidableEq

/-- The x closure of `centerToTargetFactory` in `src/controller.js`. -/
def centerToTargetX (target : Rect) (root : RectSize) (scrollPosition : ScrollPosition)
    (x1 : ℚ) : ℚ :=
  let layerCenterX := target.left - scrollPosition.x + target.width / 2
  let xDuration := (if root.width / 2 ≤ layerCenterX then layerCenterX
    else root.width - layerCenterX) * 2
  let x0 := if root.width / 2 ≤ layerCenterX then 0 else layerCenterX - xDuration / 2
  (x1 - x0) / xDuration

/-- The y closure of `centerToTargetFactory` in `src/controller.js`. -/
def centerToTargetY (target : Rect) (root : RectSize) (scrollPosition : ScrollPosition)
    (y1 : ℚ) : ℚ :=
  let layerCenterY := target.top - scrollPosition.y + target.height / 2
  let yDuration := (if root.height / 2 ≤ layerCenterY then layerCenterY
    else root.height - layerCenterY) * 2
  let y0 := if root.height / 2 ≤ layerCenterY then 0 else layerCenterY - yDuration / 2
  (y1 - y0) / yDuration

/-- The scene preparation step of `getController`: a scene with a target and
`centeredToTarget` gets a transform capturing the rect of its target. -/
def prepareScene (scene : Scene) : Scene :=
  if scene.target.isSome && scene.centeredToTarget then
    { scene with transform := scene.target }
  else scene

/-- The configuration after `getController` prepared the scenes. -/
def getControllerConfig (cfg : PointerConfig) : PointerConfig :=
  { cfg with scenes := cfg.scenes.map prepareScene }

/-- The expression `scene.transform?.x(progress.x) || progress.x / config.rect.width`
inside the controller tick. -/
def sceneNormalizedX (scene : Scene) (rect : RectSize) (scroll : ScrollPosition)
    (px : ℚ) : ℚ :=
  match scene.transform with
  | some target => jsOr (centerToTargetX target rect scroll px) (px / rect.width)
  | none => px / rect.width

/-- The expression `scene.transform?.y(progress.y) || progress.y / config.rect.height`
inside the controller tick. -/
def sceneNormalizedY (scene : Scene) (rect : RectSize) (scroll : ScrollPosition)
    (py : ℚ) : ℚ :=
  match scene.transform with
  | some target => jsOr (centerToTargetY target rect scroll py) (py / rect.height)
  | none => py / rect.height

/-- The boolean `normalizedX <= 1 && normalizedY <= 1 && normalizedX >= 0 && normalizedY >= 0`
computed by the controller tick when activity tracking is enabled. -/
def jsInBounds (nx ny : ℚ) : Bool :=
  decide (nx ≤ 1) && decide (ny ≤ 1) && decide (0 ≤ nx) && decide (0 ≤ ny)

/-- One recorded invocation of a scene effect callback, with the arguments
the controller tick passes: `(scene, {x, y}, velocity, progress.active)`. -/
structure EffectCall where
  sceneIndex : ℕ
  progressX : ℚ
  progressY : ℚ
  velocityX : ℚ
  velocityY : ℚ
  active : Option Bool
deriving DecidableEq

/-- The arguments the controller tick passes to the effect of one enabled
scene, as a function of the progress state at loop entry. -/
def sceneCall (cfg : PointerConfig) (scroll : ScrollPosition) (prog : Progress)
    (i : ℕ) (scene : Scene) : EffectCall :=
  let nx := sceneNormalizedX scene cfg.rect scroll prog.x
  let ny := sceneNormalizedY scene cfg.rect scroll prog.y
  { sceneIndex := i
    progressX := toPrecision4 (clamp 0 1 nx)
    progressY := toPrecision4 (clamp 0 1 ny)
    velocityX := prog.vx
    velocityY := prog.vy
    active := if cfg.allowActiveEvent then some (jsInBounds nx ny) else prog.active }

/-- The scene loop of the controller tick: for every enabled scene compute
the clamped, rounded progress, optionally update `progress.active`, and
invoke the effect. Returns the invocation list and the final progress. -/
def tickAux (cfg : PointerConfig) (scroll : ScrollPosition) :
    List Scene → ℕ → Progress → List EffectCall × Progress
  | [], _, prog => ([], prog)
  | scene :: rest, i, prog =>
    if scene.disabled then tickAux cfg scroll rest (i + 1) prog
    else
      let call := sceneCall cfg scroll prog i scene
      let prog' := { prog with active := call.active }
      let res := tickAux cfg scroll rest (i + 1) prog'
      (call :: res.1, res.2)

/-- The controller tick (`tick` in `src/controller.js`). -/
def tick (cfg : PointerConfig) (scroll : ScrollPosition) (prog : Progress) :
    List EffectCall × Progress :=
  tickAux cfg scroll cfg.scenes 0 prog

theorem sceneCall_congr (cfg : PointerConfig) (scroll : ScrollPosition)
    {p q : Progress} (hx : p.x = q.x) (hy : p.y = q.y) (hvx : p.vx = q.vx)
    (hvy : p.vy = q.vy) (hact : cfg.allowActiveEvent = true ∨ p.active = q.active)
    (i : ℕ) (s : Scene) : sceneCall cfg scroll p i s = sceneCall cfg scroll q i s := by
  rcases hact with h | h
  · simp [sceneCall, hx, hy, hvx, hvy, h]
  · simp [sceneCall, hx, hy, hvx, hvy, h]

theorem sceneCall_active_or (cfg : PointerConfig) (scroll : ScrollPosition)
    (prog : Progress) (i : ℕ) (s : Scene) :
    cfg.allowActiveEvent = true ∨
      prog.active = (sceneCall cfg scroll prog i s).active := by
  cases hA : cfg.allowActiveEvent
  · right
    simp [sceneCall, hA]
  · left
    rfl

theorem sceneCall_mem_tickAux (cfg : PointerConfig) (scroll : ScrollPosition) :
    ∀ (scenes : List Scene) (j : ℕ) (prog : Progress) (i : ℕ) (scene : Scene),
      scenes[i]? = some scene → scene.disabled = false →
      sceneCall cfg scroll prog (j + i) scene ∈ (tickAux cfg scroll scenes j prog).1 := by
  intro scenes
  induction scenes with
  | nil =>
    intro j prog i scene h
    simp at h
  | cons hd tl ih =>
    intro j prog i scene h hdis
    cases i with
    | zero =>
      rw [List.getElem?_cons_zero] at h
      cases h
      rw [Nat.add_zero]
      simp [tickAux, hdis]
    | succ k =>
      rw [List.getElem?_cons_succ] at h
      cases hhd : hd.disabled with
      | true =>
        simp only [tickAux, hhd, if_true]
        have := ih (j + 1) prog k scene h hdis
        rw [show j + (k + 1) = (j + 1) + k by omega]
        exact this
      | false =>
        simp only [tickAux, hhd, Bool.false_eq_true, if_false]
        apply List.mem_cons_of_mem
        set prog' : Progress :=
          { prog with active := (sceneCall cfg scroll prog j hd).active } with hp
        have hcongr : sceneCall cfg scroll prog ((j + 1) + k) scene =
            sceneCall cfg scroll prog' ((j + 1) + k) scene := by
          apply sceneCall_congr
          · rfl
          · rfl
          · rfl
          · rfl
          · rcases sceneCall_active_or cfg scroll prog j hd with h | h
            · exact Or.inl h
            · exact Or.inr h
        have := ih (j + 1) prog' k scene h hdis
        rw [show j + (k + 1) = (j + 1) + k by omega, hcongr]
        exact this

theorem tickAux_mem_spec (cfg : PointerConfig) (scroll : ScrollPosition) :
    ∀ (scenes : List Scene) (j : ℕ) (prog : Progress) (call : EffectCall),
      call ∈ (tickAux cfg scroll scenes j prog).1 →
      ∃ (k : ℕ) (scene : Scene), scenes[k]? = some scene ∧ scene.disabled = false ∧
        call.sceneIndex = j + k ∧
        call.progressX =
          toPrecision4 (clamp 0 1 (sceneNormalizedX scene cfg.rect scroll prog.x)) ∧
        call.progressY =
          toPrecision4 (clamp 0 1 (sceneNormalizedY scene cfg.rect scroll prog.y)) ∧
        call.velocityX = prog.vx ∧ call.velocityY = prog.vy := by
  intro scenes
  induction scenes with
  | nil =>
    intro j prog call h
    simp [tickAux] at h
  | cons hd tl ih =>
    intro j prog call h
    cases hhd : hd.disabled with
    | true =>
      rw [tickAux, if_pos (by rw [hhd])] at h
      obtain ⟨k, scene, h1, h2, h3, h4, h5, h6, h7⟩ := ih (j + 1) prog call h
      exact ⟨k + 1, scene, by simpa using h1, h2, by omega, h4, h5, h6, h7⟩
    | false =>
      rw [tickAux, if_neg (by rw [hhd]; exact Bool.false_ne_true)] at h
      rcases List.mem_cons.mp h with hc | hc
      · refine ⟨0, hd, by simp, hhd, ?_, ?_, ?_, ?_, ?_⟩ <;>
          simp [hc, sceneCall]
      · obtain ⟨k, scene, h1, h2, h3, h4, h5, h6, h7⟩ := ih (j + 1) _ call hc
        exact ⟨k + 1, scene, by simpa using h1, h2, by omega, h4, h5, h6, h7⟩

/-- The span of the farthest-edge formula as worded in the spec:
`span = 2 × (isFarSide ? c : rootSize − c)` with `isFarSide = (c ≥ rootSize/2)`. -/
def specSpan (c rootSize : ℚ) : ℚ :=
  2 * (if rootSize / 2 ≤ c then c else rootSize - c)

/-- The origin of the farthest-edge formula as worded in the spec:
`origin = isFarSide ? 0 : c − span/2`. -/
def specOrigin (c rootSize : ℚ) : ℚ :=
  if rootSize / 2 ≤ c then 0 else c - specSpan c rootSize / 2

/-- The normalized value of the farthest-edge formula as worded in the
spec: `(raw − origin) / span`. -/
def specFarthestEdge (c rootSize raw : ℚ) : ℚ :=
  (raw - specOrigin c rootSize) / specSpan c rootSize

theorem specSpan_pos {c rootSize : ℚ} (h : 0 < rootSize) : 0 < specSpan c rootSize := by
  unfold specSpan
  by_cases hc : rootSize / 2 ≤ c
  · rw [if_pos hc]
    linarith
  · rw [if_neg hc]
    push_neg at hc
    linarith

theorem specOrigin_nonpos {c rootSize : ℚ} (h : 0 < rootSize) : specOrigin c rootSize ≤ 0 := by
  unfold specOrigin specSpan
  by_cases hc : rootSize / 2 ≤ c
  · rw [if_pos hc]
  · rw [if_neg hc, if_neg hc]
    push_neg at hc
    linarith

/-- The x closure of `centerToTargetFactory` computes exactly the
farthest-edge formula of the spec, at the offset target center. -/
theorem centerToTargetX_eq_spec (target : Rect) (root : RectSize)
    (scroll : ScrollPosition) (x1 : ℚ) :
    centerToTargetX target root scroll x1 =
      specFarthestEdge (target.left - scroll.x + target.width / 2) root.width x1 := by
  unfold centerToTargetX specFarthestEdge specOrigin specSpan
  by_cases hc : root.width / 2 ≤ target.left - scroll.x + target.width / 2
  · rw [if_pos hc]
    simp only [hc, if_pos]
    ring_nf
  · rw [if_neg hc]
    simp only [hc, if_neg, if_false]
    ring_nf

/-- The y closure of `centerToTargetFactory` computes exactly the
farthest-edge formula of the spec, at the offset target center. -/
theorem centerToTargetY_eq_spec (target : Rect) (root : RectSize)
    (scroll : ScrollPosition) (y1 : ℚ) :
    centerToTargetY target root scroll y1 =
      specFarthestEdge (target.top - scroll.y + target.height / 2) root.height y1 := by
  unfold centerToTargetY specFarthestEdge specOrigin specSpan
  by_cases hc : root.height / 2 ≤ target.top - scroll.y + target.height / 2
  · rw [if_pos hc]
    simp only [hc, if_pos]
    ring_nf
  · rw [if_neg hc]
    simp only [hc, if_neg, if_false]
    ring_nf

/-- The `||` fallback inside the tick is invisible after clamping: when the
transform returns 0 the raw value sits at the (nonpositive) origin, so the
linear fallback also clamps to 0. -/
theorem clamp_jsOr_spec {c rootSize raw : ℚ} (h : 0 < rootSize) :
    clamp 0 1 (jsOr (specFarthestEdge c rootSize raw) (raw / rootSize)) =
      clamp 0 1 (specFarthestEdge c rootSize raw) := by
  unfold jsOr
  by_cases hz : specFarthestEdge c rootSize raw = 0
  · rw [if_pos hz, hz]
    have hspan : specSpan c rootSize ≠ 0 := ne_of_gt (specSpan_pos h)
    have horig : raw = specOrigin c rootSize := by
      have := hz
      unfold specFarthestEdge at this
      field_simp at this
      linarith
    have hraw : raw / rootSize ≤ 0 := by
      rw [horig]
      exact div_nonpos_of_nonpos_of_nonneg (specOrigin_nonpos h) (le_of_lt h)
    rw [clamp_of_nonpos hraw, clamp_of_nonpos (le_refl (0 : ℚ))]
  · rw [if_neg hz]

theorem prepareScene_of_centered {scene : Scene} {tgt : Rect}
    (htgt : scene.target = some tgt) (hcent : scene.centeredToTarget = true) :
    prepareScene scene = { scene with transform := some tgt } := by
  unfold prepareScene
  rw [htgt, hcent]
  simp

/-- C1. For every enabled scene that declares a target and
`centeredToTarget`, the per-axis progress delivered to its effect callback
is the farthest-edge formula: with `c` the offset target center,
`span = 2 × (isFarSide ? c : rootSize − c)` and
`origin = isFarSide ? 0 : c − span/2`, the delivered value is
`(raw − origin)/span` clamped to `[0,1]` and rounded to 4 significant
digits; raw at the near edge (the origin) gives 0 and raw at the far
mirrored boundary (origin plus span) gives 1. -/
theorem C1_farthest_edge_progress
    (cfg : PointerConfig) (scroll : ScrollPosition) (i : ℕ) (tgt : Rect) (scene : Scene)
    (hscene : cfg.scenes[i]? = some scene)
    (htgt : scene.target = some tgt)
    (hcent : scene.centeredToTarget = true)
    (hdis : scene.disabled = false)
    (hw : 0 < cfg.rect.width) (hh : 0 < cfg.rect.height)
    (prog : Progress) :
    sceneCall (getControllerConfig cfg) scroll prog i (prepareScene scene) ∈
      (tick (getControllerConfig cfg) scroll prog).1 ∧
    (sceneCall (getControllerConfig cfg) scroll prog i (prepareScene scene)).progressX =
      toPrecision4 (clamp 0 1
        (specFarthestEdge (tgt.left - scroll.x + tgt.width / 2) cfg.rect.width prog.x)) ∧
    (sceneCall (getControllerConfig cfg) scroll prog i (prepareScene scene)).progressY =
      toPrecision4 (clamp 0 1
        (specFarthestEdge (tgt.top - scroll.y + tgt.height / 2) cfg.rect.height prog.y)) ∧
    (prog.x = specOrigin (tgt.left - scroll.x + tgt.width / 2) cfg.rect.width →
      (sceneCall (getControllerConfig cfg) scroll prog i (prepareScene scene)).progressX = 0) ∧
    (prog.x = specOrigin (tgt.left - scroll.x + tgt.width / 2) cfg.rect.width +
        specSpan (tgt.left - scroll.x + tgt.width / 2) cfg.rect.width →
      (sceneCall (getControllerConfig cfg) scroll prog i (prepareScene scene)).progressX = 1) ∧
    (prog.y = specOrigin (tgt.top - scroll.y + tgt.height / 2) cfg.rect.height →
      (sceneCall (getControllerConfig cfg) scroll prog i (prepareScene scene)).progressY = 0) ∧
    (prog.y = specOrigin (tgt.top - scroll.y + tgt.height / 2) cfg.rect.height +
        specSpan (tgt.top - scroll.y + tgt.height / 2) cfg.rect.height →
      (sceneCall (getControllerConfig cfg) scroll prog i (prepareScene scene)).progressY = 1) := by
  have hprep : prepareScene scene = { scene with transform := some tgt } :=
    prepareScene_of_centered htgt hcent
  have hrect : (getControllerConfig cfg).rect = cfg.rect := rfl
  have hmem : sceneCall (getControllerConfig cfg) scroll prog i (prepareScene scene) ∈
      (tick (getControllerConfig cfg) scroll prog).1 := by
    have hget : (getControllerConfig cfg).scenes[i]? = some (prepareScene scene) := by
      unfold getControllerConfig
      simp [List.getElem?_map, hscene]
    have hdis2 : (prepareScene scene).disabled = false := by
      rw [hprep]
      exact hdis
    have := sceneCall_mem_tickAux (getControllerConfig cfg) scroll
      (getControllerConfig cfg).scenes 0 prog i (prepareScene scene) hget hdis2
    rw [Nat.zero_add] at this
    exact this
  have hnx : sceneNormalizedX (prepareScene scene) cfg.rect scroll prog.x =
      jsOr (specFarthestEdge (tgt.left - scroll.x + tgt.width / 2) cfg.rect.width prog.x)
        (prog.x / cfg.rect.width) := by
    rw [hprep]
    unfold sceneNormalizedX
    simp only []
    rw [centerToTargetX_eq_spec]
  have hny : sceneNormalizedY (prepareScene scene) cfg.rect scroll prog.y =
      jsOr (specFarthestEdge (tgt.top - scroll.y + tgt.height / 2) cfg.rect.height prog.y)
        (prog.y / cfg.rect.height) := by
    rw [hprep]
    unfold sceneNormalizedY
    simp only []
    rw [centerToTargetY_eq_spec]
  have hpx : (sceneCall (getControllerConfig cfg) scroll prog i (prepareScene scene)).progressX =
      toPrecision4 (clamp 0 1
        (specFarthestEdge (tgt.left - scroll.x + tgt.width / 2) cfg.rect.width prog.x)) := by
    show toPrecision4 (clamp 0 1
      (sceneNormalizedX (prepareScene scene) (getControllerConfig cfg).rect scroll prog.x)) = _
    rw [hrect, hnx, clamp_jsOr_spec hw]
  have hpy : (sceneCall (getControllerConfig cfg) scroll prog i (prepareScene scene)).progressY =
      toPrecision4 (clamp 0 1
        (specFarthestEdge (tgt.top - scroll.y + tgt.height / 2) cfg.rect.height prog.y)) := by
    show toPrecision4 (clamp 0 1
      (sceneNormalizedY (prepareScene scene) (getControllerConfig cfg).rect scroll prog.y)) = _
    rw [hrect, hny, clamp_jsOr_spec hh]
  refine ⟨hmem, hpx, hpy, ?_, ?_, ?_, ?_⟩
  · intro h0
    rw [hpx, h0]
    unfold specFarthestEdge
    rw [sub_self, zero_div, clamp_of_nonpos (le_refl (0 : ℚ)), toPrecision4_zero]
  · intro h1
    rw [hpx, h1]
    unfold specFarthestEdge
    rw [add_sub_cancel_left, div_self (ne_of_gt (specSpan_pos hw)), clamp_of_one_le (le_refl (1 : ℚ)),
      toPrecision4_one]
  · intro h0
    rw [hpy, h0]
    unfold specFarthestEdge
    rw [sub_self, zero_div, clamp_of_nonpos (le_refl (0 : ℚ)), toPrecision4_zero]
  · intro h1
    rw [hpy, h1]
    unfold specFarthestEdge
    rw [add_sub_cancel_left, div_self (ne_of_gt (specSpan_pos hh)), clamp_of_one_le (le_refl (1 : ℚ)),
      toPrecision4_one]

/-- Concrete scene of the C1 witness: a 100×100 target at (50, 50). -/
def sceneW1 : Scene := { target := some ⟨50, 50, 100, 100⟩, centeredToTarget := true }

/-- Concrete configuration of the C1 witness: a 200×200 root. -/
def cfgW1 : PointerConfig := { scenes := [sceneW1], rect := ⟨200, 200⟩ }

theorem C1_witness :
    sceneCall (getControllerConfig cfgW1) ⟨0, 0⟩ ⟨100, 100, 0, 0, none⟩ 0 (prepareScene sceneW1) ∈
      (tick (getControllerConfig cfgW1) ⟨0, 0⟩ ⟨100, 100, 0, 0, none⟩).1 ∧
    (sceneCall (getControllerConfig cfgW1) ⟨0, 0⟩ ⟨100, 100, 0, 0, none⟩ 0
      (prepareScene sceneW1)).progressX = 1 / 2 ∧
    (sceneCall (getControllerConfig cfgW1) ⟨0, 0⟩ ⟨100, 100, 0, 0, none⟩ 0
      (prepareScene sceneW1)).progressY = 1 / 2 := by
  have h := C1_farthest_edge_progress cfgW1 ⟨0, 0⟩ 0 ⟨50, 50, 100, 100⟩ sceneW1
    rfl rfl rfl rfl (by norm_num [cfgW1]) (by norm_num [cfgW1]) ⟨100, 100, 0, 0, none⟩
  have hhalf := toPrecision4_half
  refine ⟨h.1, ?_, ?_⟩
  · rw [h.2.1]
    norm_num [specFarthestEdge, specOrigin, specSpan, cfgW1, clamp, min_def, max_def]
    norm_num at hhalf
    convert hhalf using 2
  · rw [h.2.2.1]
    norm_num [specFarthestEdge, specOrigin, specSpan, cfgW1, clamp, min_def, max_def]
    norm_num at hhalf
    convert hhalf using 2

/-- C2. Every per-axis progress value passed to a scene effect callback by
the pointer controller tick lies in `[0, 1]` inclusive and equals the
clamped normalized value rounded to 4 significant digits. -/
theorem C2_progress_unit_interval_rounded
    (cfg : PointerConfig) (scroll : ScrollPosition) (prog : Progress) :
    ∀ call ∈ (tick cfg scroll prog).1,
      (0 ≤ call.progressX ∧ call.progressX ≤ 1 ∧ 0 ≤ call.progressY ∧ call.progressY ≤ 1) ∧
      ∃ scene, cfg.scenes[call.sceneIndex]? = some scene ∧ scene.disabled = false ∧
        call.progressX =
          toPrecision4 (clamp 0 1 (sceneNormalizedX scene cfg.rect scroll prog.x)) ∧
        call.progressY =
          toPrecision4 (clamp 0 1 (sceneNormalizedY scene cfg.rect scroll prog.y)) := by
  intro call hcall
  obtain ⟨k, scene, h1, h2, h3, h4, h5, _, _⟩ :=
    tickAux_mem_spec cfg scroll cfg.scenes 0 prog call hcall
  have hx0 : 0 ≤ call.progressX := by
    rw [h4]
    exact toPrecision4_nonneg (clamp_nonneg _)
  have hx1 : call.progressX ≤ 1 := by
    rw [h4]
    exact toPrecision4_le_one (clamp_nonneg _) (clamp_le_one _)
  have hy0 : 0 ≤ call.progressY := by
    rw [h5]
    exact toPrecision4_nonneg (clamp_nonneg _)
  have hy1 : call.progressY ≤ 1 := by
    rw [h5]
    exact toPrecision4_le_one (clamp_nonneg _) (clamp_le_one _)
  refine ⟨⟨hx0, hx1, hy0, hy1⟩, scene, ?_, h2, h4, h5⟩
  rw [h3, Nat.zero_add]
  exact h1

theorem C2_witness :
    0 ≤ (sceneCall cfgW1 ⟨0, 0⟩ ⟨300, -5, 2, 3, none⟩ 0 sceneW1).progressX ∧
    (sceneCall cfgW1 ⟨0, 0⟩ ⟨300, -5, 2, 3, none⟩ 0 sceneW1).progressX ≤ 1 ∧
    0 ≤ (sceneCall cfgW1 ⟨0, 0⟩ ⟨300, -5, 2, 3, none⟩ 0 sceneW1).progressY ∧
    (sceneCall cfgW1 ⟨0, 0⟩ ⟨300, -5, 2, 3, none⟩ 0 sceneW1).progressY ≤ 1 := by
  have hmem : sceneCall cfgW1 ⟨0, 0⟩ ⟨300, -5, 2, 3, none⟩ 0 sceneW1 ∈
      (tick cfgW1 ⟨0, 0⟩ ⟨300, -5, 2, 3, none⟩).1 := by
    have := sceneCall_mem_tickAux cfgW1 ⟨0, 0⟩ cfgW1.scenes 0 ⟨300, -5, 2, 3, none⟩ 0 sceneW1
      rfl rfl
    exact this
  have h := C2_progress_unit_interval_rounded cfgW1 ⟨0, 0⟩ ⟨300, -5, 2, 3, none⟩ _ hmem
  exact ⟨h.1.1, h.1.2.1, h.1.2.2.1, h.1.2.2.2⟩

theorem jsInBounds_iff (nx ny : ℚ) :
    jsInBounds nx ny = true ↔ ((0 ≤ nx ∧ nx ≤ 1) ∧ (0 ≤ ny ∧ ny ≤ 1)) := by
  unfold jsInBounds
  simp only [Bool.and_eq_true, decide_eq_true_eq]
  tauto

/-- C7. With activity tracking enabled, every enabled scene effect receives
an active flag that holds exactly when both pre-clamp normalized axes lie in
`[0, 1]`; for a scene without a centered-to-target transform, raw input at
the root edge gives `active = true`, one unit beyond gives `active = false`
while the clamped progress stays pinned at 1 resp. 0. -/
theorem C7_active_flag
    (cfg : PointerConfig) (scroll : ScrollPosition)
    (hact : cfg.allowActiveEvent = true)
    (hw : 0 < cfg.rect.width) (hh : 0 < cfg.rect.height) :
    (∀ (prog : Progress) (i : ℕ) (scene : Scene),
      cfg.scenes[i]? = some scene → scene.disabled = false →
      sceneCall cfg scroll prog i scene ∈ (tick cfg scroll prog).1 ∧
      (sceneCall cfg scroll prog i scene).active =
        some (jsInBounds (sceneNormalizedX scene cfg.rect scroll prog.x)
          (sceneNormalizedY scene cfg.rect scroll prog.y)) ∧
      (jsInBounds (sceneNormalizedX scene cfg.rect scroll prog.x)
          (sceneNormalizedY scene cfg.rect scroll prog.y) = true ↔
        ((0 ≤ sceneNormalizedX scene cfg.rect scroll prog.x ∧
            sceneNormalizedX scene cfg.rect scroll prog.x ≤ 1) ∧
          (0 ≤ sceneNormalizedY scene cfg.rect scroll prog.y ∧
            sceneNormalizedY scene cfg.rect scroll prog.y ≤ 1)))) ∧
    (∀ (i : ℕ) (scene : Scene),
      cfg.scenes[i]? = some scene → scene.disabled = false → scene.transform = none →
      ((sceneCall cfg scroll ⟨cfg.rect.width, cfg.rect.height, 0, 0, none⟩ i scene).active =
          some true ∧
        (sceneCall cfg scroll ⟨cfg.rect.width, cfg.rect.height, 0, 0, none⟩ i scene).progressX =
          1 ∧
        (sceneCall cfg scroll ⟨cfg.rect.width, cfg.rect.height, 0, 0, none⟩ i scene).progressY =
          1) ∧
      ((sceneCall cfg scroll ⟨cfg.rect.width + 1, cfg.rect.height, 0, 0, none⟩ i scene).active =
          some false ∧
        (sceneCall cfg scroll ⟨cfg.rect.width + 1, cfg.rect.height, 0, 0, none⟩
          i scene).progressX = 1) ∧
      ((sceneCall cfg scroll ⟨0, 0, 0, 0, none⟩ i scene).active = some true ∧
        (sceneCall cfg scroll ⟨0, 0, 0, 0, none⟩ i scene).progressX = 0) ∧
      ((sceneCall cfg scroll ⟨-1, 0, 0, 0, none⟩ i scene).active = some false ∧
        (sceneCall cfg scroll ⟨-1, 0, 0, 0, none⟩ i scene).progressX = 0)) := by
  constructor
  · intro prog i scene hscene hdis
    refine ⟨?_, ?_, jsInBounds_iff _ _⟩
    · have := sceneCall_mem_tickAux cfg scroll cfg.scenes 0 prog i scene hscene hdis
      rw [Nat.zero_add] at this
      exact this
    · show (if cfg.allowActiveEvent then _ else _) = _
      rw [if_pos hact]
  · intro i scene hscene hdis htr
    have hwne : cfg.rect.width ≠ 0 := ne_of_gt hw
    have hhne : cfg.rect.height ≠ 0 := ne_of_gt hh
    have hnx1 : sceneNormalizedX scene cfg.rect scroll cfg.rect.width = 1 := by
      unfold sceneNormalizedX
      rw [htr]
      exact div_self hwne
    have hny1 : sceneNormalizedY scene cfg.rect scroll cfg.rect.height = 1 := by
      unfold sceneNormalizedY
      rw [htr]
      exact div_self hhne
    have hnxBeyond : 1 < sceneNormalizedX scene cfg.rect scroll (cfg.rect.width + 1) := by
      unfold sceneNormalizedX
      rw [htr]
      rw [one_lt_div hw]
      linarith
    have hnx0 : sceneNormalizedX scene cfg.rect scroll 0 = 0 := by
      unfold sceneNormalizedX
      rw [htr]
      exact zero_div _
    have hny0 : sceneNormalizedY scene cfg.rect scroll 0 = 0 := by
      unfold sceneNormalizedY
      rw [htr]
      exact zero_div _
    have hnxNeg : sceneNormalizedX scene cfg.rect scroll (-1) < 0 := by
      unfold sceneNormalizedX
      rw [htr]
      exact div_neg_of_neg_of_pos (by norm_num) hw
    have hactiveOf : ∀ p : Progress, (sceneCall cfg scroll p i scene).active =
        some (jsInBounds (sceneNormalizedX scene cfg.rect scroll p.x)
          (sceneNormalizedY scene cfg.rect scroll p.y)) := by
      intro p
      show (if cfg.allowActiveEvent then _ else _) = _
      rw [if_pos hact]
    refine ⟨⟨?_, ?_, ?_⟩, ⟨?_, ?_⟩, ⟨?_, ?_⟩, ⟨?_, ?_⟩⟩
    · rw [hactiveOf]
      show some (jsInBounds (sceneNormalizedX scene cfg.rect scroll cfg.rect.width)
        (sceneNormalizedY scene cfg.rect scroll cfg.rect.height)) = some true
      have htrue : jsInBounds (1 : ℚ) 1 = true := (jsInBounds_iff 1 1).mpr (by norm_num)
      rw [hnx1, hny1, htrue]
    · show toPrecision4 (clamp 0 1 (sceneNormalizedX scene cfg.rect scroll cfg.rect.width)) = 1
      rw [hnx1, clamp_of_one_le le_rfl, toPrecision4_one]
    · show toPrecision4 (clamp 0 1 (sceneNormalizedY scene cfg.rect scroll cfg.rect.height)) = 1
      rw [hny1, clamp_of_one_le le_rfl, toPrecision4_one]
    · rw [hactiveOf]
      show some (jsInBounds (sceneNormalizedX scene cfg.rect scroll (cfg.rect.width + 1))
        (sceneNormalizedY scene cfg.rect scroll cfg.rect.height)) = some false
      have : jsInBounds (sceneNormalizedX scene cfg.rect scroll (cfg.rect.width + 1))
          (sceneNormalizedY scene cfg.rect scroll cfg.rect.height) = false := by
        rw [Bool.eq_false_iff]
        intro hcon
        have := ((jsInBounds_iff _ _).mp hcon).1.2
        linarith
      rw [this]
    · show toPrecision4
        (clamp 0 1 (sceneNormalizedX scene cfg.rect scroll (cfg.rect.width + 1))) = 1
      rw [clamp_of_one_le (le_of_lt hnxBeyond), toPrecision4_one]
    · rw [hactiveOf]
      show some (jsInBounds (sceneNormalizedX scene cfg.rect scroll 0)
        (sceneNormalizedY scene cfg.rect scroll 0)) = some true
      have htrue : jsInBounds (0 : ℚ) 0 = true := (jsInBounds_iff 0 0).mpr (by norm_num)
      rw [hnx0, hny0, htrue]
    · show toPrecision4 (clamp 0 1 (sceneNormalizedX scene cfg.rect scroll 0)) = 0
      rw [hnx0, clamp_of_nonpos le_rfl, toPrecision4_zero]
    · rw [hactiveOf]
      show some (jsInBounds (sceneNormalizedX scene cfg.rect scroll (-1))
        (sceneNormalizedY scene cfg.rect scroll 0)) = some false
      have : jsInBounds (sceneNormalizedX scene cfg.rect scroll (-1))
          (sceneNormalizedY scene cfg.rect scroll 0) = false := by
        rw [Bool.eq_false_iff]
        intro hcon
        have := ((jsInBounds_iff _ _).mp hcon).1.1
        linarith
      rw [this]
    · show toPrecision4 (clamp 0 1 (sceneNormalizedX scene cfg.rect scroll (-1))) = 0
      rw [clamp_of_nonpos (le_of_lt hnxNeg), toPrecision4_zero]

/-- Configuration of the C7 witness: one plain scene, active events on. -/
def cfgW7 : PointerConfig :=
  { scenes := [{ }], rect := ⟨400, 200⟩, allowActiveEvent := true }

theorem C7_witness :
    (sceneCall cfgW7 ⟨0, 0⟩ ⟨cfgW7.rect.width, cfgW7.rect.height, 0, 0, none⟩ 0 { }).active =
      some true ∧
    (sceneCall cfgW7 ⟨0, 0⟩ ⟨cfgW7.rect.width + 1, cfgW7.rect.height, 0, 0, none⟩ 0 { }).active =
      some false ∧
    (sceneCall cfgW7 ⟨0, 0⟩ ⟨cfgW7.rect.width + 1, cfgW7.rect.height, 0, 0, none⟩ 0
      { }).progressX = 1 := by
  have h := (C7_active_flag cfgW7 ⟨0, 0⟩ rfl (by norm_num [cfgW7]) (by norm_num [cfgW7])).2
    0 { } rfl rfl rfl
  exact ⟨h.1.1, h.2.1.1, h.2.1.2⟩

/-- Initial value of the live progress snapshot built by the Pointer
constructor: the center of the root rect with zero velocity. -/
def initialProgress (rect : RectSize) : Progress :=
  { x := rect.width / 2, y := rect.height / 2, vx := 0, vy := 0, active := none }

/-- C9. After construction with a root rect of positive size and start(),
before any pointer event, the tick invokes every enabled transform-free
scene with progress exactly (0.5, 0.5) and zero velocity, the live snapshot
being initialized to the center of the root rect. -/
theorem C9_initial_center_progress
    (cfg : PointerConfig) (scroll : ScrollPosition) (i : ℕ) (scene : Scene)
    (hscene : cfg.scenes[i]? = some scene)
    (hdis : scene.disabled = false)
    (hcent : scene.centeredToTarget = false)
    (htr : scene.transform = none)
    (hw : 0 < cfg.rect.width) (hh : 0 < cfg.rect.height) :
    initialProgress cfg.rect =
      { x := cfg.rect.width / 2, y := cfg.rect.height / 2, vx := 0, vy := 0, active := none } ∧
    sceneCall (getControllerConfig cfg) scroll (initialProgress cfg.rect) i scene ∈
      (tick (getControllerConfig cfg) scroll (initialProgress cfg.rect)).1 ∧
    (sceneCall (getControllerConfig cfg) scroll (initialProgress cfg.rect) i scene).progressX =
      1 / 2 ∧
    (sceneCall (getControllerConfig cfg) scroll (initialProgress cfg.rect) i scene).progressY =
      1 / 2 ∧
    (sceneCall (getControllerConfig cfg) scroll (initialProgress cfg.rect) i scene).velocityX =
      0 ∧
    (sceneCall (getControllerConfig cfg) scroll (initialProgress cfg.rect) i scene).velocityY =
      0 := by
  have hprep : prepareScene scene = scene := by
    unfold prepareScene
    rw [hcent]
    simp
  have hget : (getControllerConfig cfg).scenes[i]? = some scene := by
    unfold getControllerConfig
    simp [List.getElem?_map, hscene, hprep]
  have hmem : sceneCall (getControllerConfig cfg) scroll (initialProgress cfg.rect) i scene ∈
      (tick (getControllerConfig cfg) scroll (initialProgress cfg.rect)).1 := by
    have := sceneCall_mem_tickAux (getControllerConfig cfg) scroll
      (getControllerConfig cfg).scenes 0 (initialProgress cfg.rect) i scene hget hdis
    rw [Nat.zero_add] at this
    exact this
  have hxval : cfg.rect.width / 2 / cfg.rect.width = 1 / 2 := by
    rw [div_div, mul_comm, ← div_div, div_self (ne_of_gt hw)]
  have hyval : cfg.rect.height / 2 / cfg.rect.height = 1 / 2 := by
    rw [div_div, mul_comm, ← div_div, div_self (ne_of_gt hh)]
  refine ⟨rfl, hmem, ?_, ?_, rfl, rfl⟩
  · show toPrecision4 (clamp 0 1
      (sceneNormalizedX scene (getControllerConfig cfg).rect scroll (initialProgress cfg.rect).x)) = _
    unfold sceneNormalizedX
    rw [htr]
    show toPrecision4 (clamp 0 1 (cfg.rect.width / 2 / cfg.rect.width)) = _
    rw [hxval, clamp_of_mem (by norm_num) (by norm_num), toPrecision4_half]
  · show toPrecision4 (clamp 0 1
      (sceneNormalizedY scene (getControllerConfig cfg).rect scroll (initialProgress cfg.rect).y)) = _
    unfold sceneNormalizedY
    rw [htr]
    show toPrecision4 (clamp 0 1 (cfg.rect.height / 2 / cfg.rect.height)) = _
    rw [hyval, clamp_of_mem (by norm_num) (by norm_num), toPrecision4_half]

theorem C9_witness :
    (sceneCall (getControllerConfig { scenes := [{ }], rect := ⟨400, 200⟩ }) ⟨0, 0⟩
      (initialProgress ⟨400, 200⟩) 0 { }).progressX = 1 / 2 ∧
    (sceneCall (getControllerConfig { scenes := [{ }], rect := ⟨400, 200⟩ }) ⟨0, 0⟩
      (initialProgress ⟨400, 200⟩) 0 { }).progressY = 1 / 2 ∧
    (sceneCall (getControllerConfig { scenes := [{ }], rect := ⟨400, 200⟩ }) ⟨0, 0⟩
      (initialProgress ⟨400, 200⟩) 0 { }).velocityX = 0 := by
  have h := C9_initial_center_progress { scenes := [{ }], rect := ⟨400, 200⟩ } ⟨0, 0⟩ 0 { }
    rfl rfl rfl rfl (by norm_num) (by norm_num)
  exact ⟨h.2.2.1, h.2.2.2.1, h.2.2.2.2.1⟩

/-- The reducer body of the transition frame for a numeric key:
`previousProgress[key] + (value − previousProgress[key]) * t`. -/
def interpolate (t prev value : ℚ) : ℚ := prev + (value - prev) * t

/-- One frame of `Pointer.transition` (`src/Pointer.js`): compute
`p = (time − startTime) / duration` and `t = easing(min(1, p))`,
interpolate every numeric key of the live progress from the previous
snapshot, carry the `active` key through unmodified, and if `p < 1`
schedule another frame, otherwise zero the velocity of the dispatched
snapshot. Returns the dispatched snapshot and whether a next frame was
scheduled. -/
def transitionFrame (duration : ℚ) (easing : ℚ → ℚ) (startTime time : ℚ)
    (previous live : Progress) : Progress × Bool :=
  let p := (time - startTime) / duration
  let t := easing (min 1 p)
  let current : Progress :=
    { x := interpolate t previous.x live.x
      y := interpolate t previous.y live.y
      vx := interpolate t previous.vx live.vx
      vy := interpolate t previous.vy live.vy
      active := live.active }
  if p < 1 then (current, true)
  else ({ current with vx := 0, vy := 0 }, false)

/-- `Object.assign(dst, src)` on progress snapshots: every numeric key of
src is copied onto dst; the `active` key only when src carries it. -/
def assignProgress (dst src : Progress) : Progress :=
  { x := src.x
    y := src.y
    vx := src.vx
    vy := src.vy
    active := match src.active with
      | some b => some b
      | none => dst.active }

/-- The transition-related instance state of a pointer Driver. -/
structure PointerState where
  progress : Progress
  previousProgress : Progress
  currentProgress : Option Progress
  startTime : ℚ
  nextTransitionTick : Option ℕ
deriving DecidableEq

/-- The state built by the Pointer constructor. -/
def initialPointerState (rect : RectSize) : PointerState :=
  { progress := initialProgress rect
    previousProgress := initialProgress rect
    currentProgress := none
    startTime := 0
    nextTransitionTick := none }

/-- Everything one synchronous `transition()` call produces: the new driver
state, the snapshots handed to `effect.tick`, and the cancelled frame ids. -/
structure TransitionResult where
  state : PointerState
  dispatched : List Progress
  cancelled : List ℕ
deriving DecidableEq

/-- The synchronous part of `Pointer.transition()`: when a start time is
already recorded, cancel the pending frame, assign the last interpolated
snapshot onto the previous one, reset the start time to now and run one
frame immediately; otherwise only record the start time. -/
def transition (duration : ℚ) (easing : ℚ → ℚ) (s : PointerState) (now : ℚ)
    (newFrameId : ℕ) : TransitionResult :=
  if s.startTime ≠ 0 then
    let cancelled := s.nextTransitionTick.toList
    let previous' := match s.currentProgress with
      | some c => assignProgress s.previousProgress c
      | none => s.previousProgress
    let step := transitionFrame duration easing now now previous' s.progress
    { state :=
        { s with
          previousProgress := previous'
          currentProgress := some step.1
          startTime := now
          nextTransitionTick := if step.2 then some newFrameId else s.nextTransitionTick }
      dispatched := [step.1]
      cancelled := cancelled }
  else
    { state := { s with startTime := now }, dispatched := [], cancelled := [] }

/-- C4. Every scheduled transition frame computes
`t = easing(min(1, (now − startTime)/duration))` and dispatches a snapshot
whose numeric fields are `previous + (live − previous) × t` with the
boolean active field carried through unmodified; once the elapsed fraction
reaches 1 no further frame is scheduled and the dispatched velocity fields
are zero on the completing frame. -/
theorem C4_transition_frame_interpolation
    (duration : ℚ) (easing : ℚ → ℚ) (startTime time : ℚ) (previous live : Progress) :
    (transitionFrame duration easing startTime time previous live).1.x =
      previous.x + (live.x - previous.x) *
        easing (min 1 ((time - startTime) / duration)) ∧
    (transitionFrame duration easing startTime time previous live).1.y =
      previous.y + (live.y - previous.y) *
        easing (min 1 ((time - startTime) / duration)) ∧
    (transitionFrame duration easing startTime time previous live).1.active = live.active ∧
    ((time - startTime) / duration < 1 →
      (transitionFrame duration easing startTime time previous live).2 = true ∧
      (transitionFrame duration easing startTime time previous live).1.vx =
        previous.vx + (live.vx - previous.vx) *
          easing (min 1 ((time - startTime) / duration)) ∧
      (transitionFrame duration easing startTime time previous live).1.vy =
        previous.vy + (live.vy - previous.vy) *
          easing (min 1 ((time - startTime) / duration))) ∧
    (1 ≤ (time - startTime) / duration →
      (transitionFrame duration easing startTime time previous live).2 = false ∧
      (transitionFrame duration easing startTime time previous live).1.vx = 0 ∧
      (transitionFrame duration easing startTime time previous live).1.vy = 0 ∧
      easing (min 1 ((time - startTime) / duration)) = easing 1) := by
  unfold transitionFrame interpolate
  by_cases hp : (time - startTime) / duration < 1
  · rw [if_pos hp]
    refine ⟨rfl, rfl, rfl, fun _ => ⟨rfl, rfl, rfl⟩, fun hge => absurd hp (not_lt.mpr hge)⟩
  · rw [if_neg hp]
    push_neg at hp
    refine ⟨rfl, rfl, rfl, fun hlt => absurd hlt (not_lt.mpr hp), fun _ => ⟨rfl, rfl, rfl, ?_⟩⟩
    rw [min_eq_left hp]

theorem C4_witness :
    (transitionFrame 100 (fun p => p) 0 150 ⟨0, 0, 5, 5, none⟩ ⟨1, 2, 3, 4, none⟩).2 = false ∧
    (transitionFrame 100 (fun p => p) 0 150 ⟨0, 0, 5, 5, none⟩ ⟨1, 2, 3, 4, none⟩).1.vx = 0 ∧
    (transitionFrame 100 (fun p => p) 0 150 ⟨0, 0, 5, 5, none⟩ ⟨1, 2, 3, 4, none⟩).1.x = 1 := by
  have h := C4_transition_frame_interpolation 100 (fun p => p) 0 150
    ⟨0, 0, 5, 5, none⟩ ⟨1, 2, 3, 4, none⟩
  have hge : (1 : ℚ) ≤ (150 - 0) / 100 := by norm_num
  obtain ⟨hx, _, _, _, hdone⟩ := h
  refine ⟨(hdone hge).1, (hdone hge).2.1, ?_⟩
  rw [hx, (hdone hge).2.2.2]
  norm_num

/-- C5. Re-triggering `transition()` while a transition is running cancels
the scheduled frame, assigns the last interpolated snapshot onto the
previous one (so the new previous equals the last dispatched interpolated
value, numeric field by numeric field), resets the start time to now, and
immediately dispatches one interpolation step at elapsed fraction 0 — which,
for an easing fixing 0, repeats the last interpolated numeric values, so no
discontinuous jump back occurs. -/
theorem C5_retrigger_continuity
    (duration : ℚ) (easing : ℚ → ℚ) (s : PointerState) (now : ℚ) (newFrameId : ℕ)
    (c : Progress) (hrun : s.startTime ≠ 0) (hcur : s.currentProgress = some c) :
    (transition duration easing s now newFrameId).cancelled = s.nextTransitionTick.toList ∧
    (∀ fid, s.nextTransitionTick = some fid →
      fid ∈ (transition duration easing s now newFrameId).cancelled) ∧
    (transition duration easing s now newFrameId).state.previousProgress =
      assignProgress s.previousProgress c ∧
    (transition duration easing s now newFrameId).state.previousProgress.x = c.x ∧
    (transition duration easing s now newFrameId).state.previousProgress.y = c.y ∧
    (transition duration easing s now newFrameId).state.previousProgress.vx = c.vx ∧
    (transition duration easing s now newFrameId).state.previousProgress.vy = c.vy ∧
    (transition duration easing s now newFrameId).state.startTime = now ∧
    (transition duration easing s now newFrameId).dispatched =
      [(transitionFrame duration easing now now
        (assignProgress s.previousProgress c) s.progress).1] ∧
    (easing 0 = 0 → ∀ d ∈ (transition duration easing s now newFrameId).dispatched,
      d.x = c.x ∧ d.y = c.y ∧ d.vx = c.vx ∧ d.vy = c.vy) := by
  unfold transition
  rw [if_pos hrun, hcur]
  have hp0 : (now - now) / duration = 0 := by
    rw [sub_self, zero_div]
  refine ⟨rfl, ?_, rfl, rfl, rfl, rfl, rfl, rfl, rfl, ?_⟩
  · intro fid hfid
    simp [hfid, Option.toList]
  · intro h0 d hd
    simp only [List.mem_singleton] at hd
    subst hd
    unfold transitionFrame interpolate
    rw [if_pos (by rw [hp0]; norm_num)]
    have ht : easing (min 1 ((now - now) / duration)) = 0 := by
      rw [hp0, min_eq_right zero_le_one, h0]
    simp only [ht, mul_zero, add_zero]
    exact ⟨rfl, rfl, rfl, rfl⟩

theorem C5_witness :
    (transition 100 (fun p => p)
      ⟨⟨10, 10, 1, 1, none⟩, ⟨0, 0, 0, 0, none⟩, some ⟨4, 5, 2, 3, none⟩, 7, some 42⟩
      20 99).cancelled = [42] ∧
    (transition 100 (fun p => p)
      ⟨⟨10, 10, 1, 1, none⟩, ⟨0, 0, 0, 0, none⟩, some ⟨4, 5, 2, 3, none⟩, 7, some 42⟩
      20 99).state.previousProgress.x = 4 ∧
    (transition 100 (fun p => p)
      ⟨⟨10, 10, 1, 1, none⟩, ⟨0, 0, 0, 0, none⟩, some ⟨4, 5, 2, 3, none⟩, 7, some 42⟩
      20 99).state.startTime = 20 ∧
    ∀ d ∈ (transition 100 (fun p => p)
      ⟨⟨10, 10, 1, 1, none⟩, ⟨0, 0, 0, 0, none⟩, some ⟨4, 5, 2, 3, none⟩, 7, some 42⟩
      20 99).dispatched, d.x = 4 := by
  have h := C5_retrigger_continuity 100 (fun p => p)
    ⟨⟨10, 10, 1, 1, none⟩, ⟨0, 0, 0, 0, none⟩, some ⟨4, 5, 2, 3, none⟩, 7, some 42⟩
    20 99 ⟨4, 5, 2, 3, none⟩ (by norm_num) rfl
  refine ⟨?_, h.2.2.2.1, h.2.2.2.2.2.2.2.1, ?_⟩
  · rw [h.1]
    rfl
  · intro d hd
    exact ((h.2.2.2.2.2.2.2.2.2 rfl) d hd).1

/-- C10. The very first `transition()` call after construction, while the
stored start time is still 0, only records the start time: it dispatches
nothing, cancels nothing, schedules no frame, and leaves the previous, live
and current snapshots unchanged; from the second trigger on (start time now
nonzero) exactly one snapshot is dispatched per call. -/
theorem C10_first_transition_records_start
    (duration : ℚ) (easing : ℚ → ℚ) (s : PointerState) (now : ℚ) (newFrameId : ℕ)
    (h0 : s.startTime = 0) :
    transition duration easing s now newFrameId =
      { state := { s with startTime := now }, dispatched := [], cancelled := [] } ∧
    (transition duration easing s now newFrameId).state.progress = s.progress ∧
    (transition duration easing s now newFrameId).state.previousProgress =
      s.previousProgress ∧
    (transition duration easing s now newFrameId).state.currentProgress =
      s.currentProgress ∧
    (transition duration easing s now newFrameId).state.nextTransitionTick =
      s.nextTransitionTick ∧
    (transition duration easing s now newFrameId).state.startTime = now ∧
    (transition duration easing s now newFrameId).dispatched = [] ∧
    (transition duration easing s now newFrameId).cancelled = [] ∧
    (now ≠ 0 → ∀ (now2 : ℚ) (fid2 : ℕ),
      (transition duration easing (transition duration easing s now newFrameId).state
        now2 fid2).dispatched.length = 1) := by
  have hneg : ¬s.startTime ≠ 0 := by
    rw [h0]
    exact not_not_intro rfl
  have hmain : transition duration easing s now newFrameId =
      { state := { s with startTime := now }, dispatched := [], cancelled := [] } := by
    unfold transition
    rw [if_neg hneg]
  refine ⟨hmain, by rw [hmain], by rw [hmain], by rw [hmain], by rw [hmain], by rw [hmain],
    by rw [hmain], by rw [hmain], ?_⟩
  intro hnow now2 fid2
  rw [hmain]
  show (transition duration easing { s with startTime := now } now2 fid2).dispatched.length = 1
  unfold transition
  rw [if_pos (by simpa using hnow)]
  rfl

theorem C10_witness :
    transition 100 (fun p => p) (initialPointerState ⟨400, 200⟩) 5 99 =
      { state := { initialPointerState ⟨400, 200⟩ with startTime := 5 }
        dispatched := []
        cancelled := [] } ∧
    (transition 100 (fun p => p)
      (transition 100 (fun p => p) (initialPointerState ⟨400, 200⟩) 5 99).state
      6 100).dispatched.length = 1 := by
  have h := C10_first_transition_records_start 100 (fun p => p)
    (initialPointerState ⟨400, 200⟩) 5 99 rfl
  exact ⟨h.1, h.2.2.2.2.2.2.2.2 (by norm_num) 6 100⟩

/-- JS numeric coercion applied to a possibly-null number: null counts as 0.
Used where the gyro code does arithmetic with the zero baselines. -/
def jsNum (q : Option ℚ) : ℚ := q.getD 0

/-- One `deviceorientation` sample; a null gamma or beta means the sensor
is not ready yet. -/
structure OrientationEvent where
  gamma : Option ℚ
  beta : Option ℚ
deriving DecidableEq

/-- The closure state of the Gyro `_measure` handler: the per-axis zero
baselines and their previous values (JS variables holding numbers,
initialized to 0, so they are never actually null), the remaining sample
budget, and the progress output. -/
structure GyroState where
  gammaZero : Option ℚ
  betaZero : Option ℚ
  lastGammaZero : Option ℚ
  lastBetaZero : Option ℚ
  samples : ℚ
  px : ℚ
  py : ℚ
deriving DecidableEq

/-- The state captured when the Gyro constructor runs: all baselines start
at the number 0 and the budget is the configured sample count. -/
def initialGyroState (samples : ℚ) : GyroState :=
  { gammaZero := some 0
    betaZero := some 0
    lastGammaZero := some 0
    lastBetaZero := some 0
    samples := samples
    px := 0
    py := 0 }

/-- The Gyro `_measure` handler: discard samples with a null angle; while
the sample budget is positive, update the zero baselines by pairwise
averaging (the `gammaZero == null` branch would seed them directly, but the
baselines start at 0) and decrement the budget; then write the calibrated,
clamped, rounded progress. -/
def gyroMeasure (maxGamma maxBeta : ℚ) (s : GyroState) (e : OrientationEvent) : GyroState :=
  match e.gamma, e.beta with
  | some g, some b =>
    let s1 :=
      if 0 < s.samples then
        let lastG := s.gammaZero
        let lastB := s.betaZero
        let gz := match s.gammaZero with
          | none => some g
          | some _ => some ((g + jsNum lastG) / 2)
        let bz := match s.gammaZero with
          | none => some b
          | some _ => some ((b + jsNum lastB) / 2)
        { s with
          gammaZero := gz
          betaZero := bz
          lastGammaZero := lastG
          lastBetaZero := lastB
          samples := s.samples - 1 }
      else s
    { s1 with
      px := toPrecision4 (clamp 0 1 ((g - jsNum s1.gammaZero + maxGamma) / (maxGamma * 2)))
      py := toPrecision4 (clamp 0 1 ((b - jsNum s1.betaZero + maxBeta) / (maxBeta * 2))) }
  | _, _ => s

/-- C6. On each non-null orientation sample, while the sample budget is
positive the per-axis zero baseline follows the pairwise-averaging formula
(`zero` is defined, so the averaging branch applies) and the budget drops
by one; once the budget is exhausted the baselines and the budget are
frozen over any further sequence of samples, and null samples never change
the state. -/
theorem C6_gyro_calibration
    (maxGamma maxBeta : ℚ) (s : GyroState) (e : OrientationEvent) (g b zg zb : ℚ)
    (hg : e.gamma = some g) (hb : e.beta = some b) :
    (0 < s.samples → s.gammaZero = some zg → s.betaZero = some zb →
      (gyroMeasure maxGamma maxBeta s e).gammaZero = some ((g + zg) / 2) ∧
      (gyroMeasure maxGamma maxBeta s e).betaZero = some ((b + zb) / 2) ∧
      (gyroMeasure maxGamma maxBeta s e).lastGammaZero = some zg ∧
      (gyroMeasure maxGamma maxBeta s e).samples = s.samples - 1) ∧
    (s.samples ≤ 0 → ∀ events : List OrientationEvent,
      (events.foldl (gyroMeasure maxGamma maxBeta) s).gammaZero = s.gammaZero ∧
      (events.foldl (gyroMeasure maxGamma maxBeta) s).betaZero = s.betaZero ∧
      (events.foldl (gyroMeasure maxGamma maxBeta) s).samples = s.samples) ∧
    (∀ s2 : GyroState, gyroMeasure maxGamma maxBeta s2 ⟨none, e.beta⟩ = s2 ∧
      gyroMeasure maxGamma maxBeta s2 ⟨e.gamma, none⟩ = s2) := by
  refine ⟨?_, ?_, ?_⟩
  · intro hpos hzg hzb
    unfold gyroMeasure
    rw [hg, hb]
    simp only [if_pos hpos, hzg, hzb, jsNum, Option.getD_some]
    refine ⟨?_, ?_, ?_, ?_⟩ <;> trivial
  · intro hdone events
    have hstep : ∀ s2 : GyroState, s2.samples ≤ 0 → ∀ e2 : OrientationEvent,
        (gyroMeasure maxGamma maxBeta s2 e2).gammaZero = s2.gammaZero ∧
        (gyroMeasure maxGamma maxBeta s2 e2).betaZero = s2.betaZero ∧
        (gyroMeasure maxGamma maxBeta s2 e2).samples = s2.samples := by
      intro s2 h2 e2
      cases hg2 : e2.gamma with
      | none => simp [gyroMeasure, hg2]
      | some g2 =>
        cases hb2 : e2.beta with
        | none => simp [gyroMeasure, hg2, hb2]
        | some b2 =>
          simp only [gyroMeasure, hg2, hb2]
          rw [if_neg (not_lt.mpr h2)]
          exact ⟨rfl, rfl, rfl⟩
    induction events generalizing s with
    | nil => exact ⟨rfl, rfl, rfl⟩
    | cons e2 rest ih =>
      rw [List.foldl_cons]
      obtain ⟨h1, h2, h3⟩ := hstep s hdone e2
      obtain ⟨ih1, ih2, ih3⟩ := ih (gyroMeasure maxGamma maxBeta s e2) (by rw [h3]; exact hdone)
      exact ⟨by rw [ih1, h1], by rw [ih2, h2], by rw [ih3, h3]⟩
  · intro s2
    constructor
    · unfold gyroMeasure
      rfl
    · cases hgg : e.gamma with
      | none => unfold gyroMeasure; rfl
      | some g2 => unfold gyroMeasure; rfl

theorem C6_witness :
    (0 : ℚ) < (initialGyroState 3).samples ∧
    (gyroMeasure 15 15 (initialGyroState 3) ⟨some 10, some (-10)⟩).gammaZero = some 5 ∧
    (gyroMeasure 15 15 (initialGyroState 3) ⟨some 10, some (-10)⟩).betaZero = some (-5) ∧
    (gyroMeasure 15 15 (initialGyroState 3) ⟨some 10, some (-10)⟩).samples = 2 := by
  have h := (C6_gyro_calibration 15 15 (initialGyroState 3) ⟨some 10, some (-10)⟩
    10 (-10) 0 0 rfl rfl).1 (by norm_num [initialGyroState]) rfl rfl
  refine ⟨by norm_num [initialGyroState], ?_, ?_, ?_⟩
  · rw [h.1]
    norm_num
  · rw [h.2.1]
    norm_num
  · rw [h.2.2.2]
    norm_num [initialGyroState]

/-- A JavaScript runtime TypeError, thrown when a member of undefined is
accessed or a missing function is called. -/
inductive JsError where
  | typeError
deriving DecidableEq

/-- Pointer configuration exactly as the JS constructor receives it: the
scene list may be missing entirely. -/
structure JsPointerConfig where
  scenes : Option (List Scene)
  rect : RectSize
  allowActiveEvent : Bool := false
deriving DecidableEq

/-- The Pointer constructor: it copies the config, selects a trigger from
`transitionDuration`/`noThrottle`, reads the root geometry into
`config.rect` and seeds the progress snapshots at the rect center. It
never reads `config.scenes`, so it cannot fail on a missing scene list or
on a scene without an effect. -/
def pointerConstruct (cfg : JsPointerConfig) : Except JsError PointerState :=
  .ok (initialPointerState cfg.rect)

/-- The scene preparation loop of `getController`, reached from `start()`
via `setupEffect`: `config.scenes.forEach(...)` throws a TypeError when the
scene list is missing. -/
def getControllerJs (cfg : JsPointerConfig) : Except JsError (List Scene) :=
  match cfg.scenes with
  | none => .error .typeError
  | some scenes => .ok (scenes.map prepareScene)

/-- The controller tick with the effect invocation made explicit: calling
`scene.effect(...)` on an enabled scene without an effect function throws a
TypeError, aborting the remaining scenes of that tick. -/
def tickJsAux (cfg : PointerConfig) (scroll : ScrollPosition) :
    List Scene → ℕ → Progress → Except JsError (List EffectCall)
  | [], _, _ => .ok []
  | scene :: rest, i, prog =>
    if scene.disabled then tickJsAux cfg scroll rest (i + 1) prog
    else
      let call := sceneCall cfg scroll prog i scene
      let prog' := { prog with active := call.active }
      match scene.effect with
      | none => .error .typeError
      | some _ =>
        match tickJsAux cfg scroll rest (i + 1) prog' with
        | .error err => .error err
        | .ok calls => .ok (call :: calls)

/-- C3 counterexample. Constructing a Pointer with a missing scene list, or
with a scene missing its effect, raises nothing at construction time: the
constructor returns normally in both cases, refuting the claim that the
configuration error is raised synchronously at construction. -/
theorem C3_counterexample :
    pointerConstruct { scenes := none, rect := ⟨400, 200⟩ } =
      .ok (initialPointerState ⟨400, 200⟩) ∧
    pointerConstruct { scenes := some [{ effect := none }], rect := ⟨400, 200⟩ } =
      .ok (initialPointerState ⟨400, 200⟩) :=
  ⟨rfl, rfl⟩

/-- C3 (amended). The constructor always returns normally; a missing scene
list only throws when `start()` builds the controller, and a scene missing
its effect only throws at the first tick that dispatches it. -/
theorem C3_errors_deferred :
    (∀ cfg : JsPointerConfig, pointerConstruct cfg = .ok (initialPointerState cfg.rect)) ∧
    (∀ cfg : JsPointerConfig, cfg.scenes = none →
      getControllerJs cfg = .error .typeError) ∧
    (∀ (cfg : PointerConfig) (scroll : ScrollPosition) (prog : Progress) (i : ℕ)
        (scene : Scene) (rest : List Scene),
      scene.effect = none → scene.disabled = false →
      tickJsAux cfg scroll (scene :: rest) i prog = .error .typeError) := by
  refine ⟨fun _ => rfl, ?_, ?_⟩
  · intro cfg hnone
    unfold getControllerJs
    rw [hnone]
  · intro cfg scroll prog i scene rest heff hdis
    unfold tickJsAux
    rw [if_neg (by rw [hdis]; exact Bool.false_ne_true)]
    simp only [heff]

theorem C3_witness :
    getControllerJs { scenes := none, rect := ⟨400, 200⟩ } = .error .typeError ∧
    tickJsAux { scenes := [{ effect := none }], rect := ⟨400, 200⟩ } ⟨0, 0⟩
      [{ effect := none }] 0 ⟨100, 100, 0, 0, none⟩ = .error .typeError := by
  constructor
  · exact C3_errors_deferred.2.1 { scenes := none, rect := ⟨400, 200⟩ } rfl
  · exact C3_errors_deferred.2.2 { scenes := [{ effect := none }], rect := ⟨400, 200⟩ }
      ⟨0, 0⟩ ⟨100, 100, 0, 0, none⟩ 0 { effect := none } [] rfl rfl

/-- The lifecycle state of a Pointer instance that `destroy()` touches:
the wired effect pipeline (with its scenes), whether input listeners are
attached, and the pending tick and transition frame handles. -/
structure LifecycleState where
  effect : Option (List Scene)
  listening : Bool
  nextTick : Option ℕ
  nextTransitionTick : Option ℕ
deriving DecidableEq

/-- The scene indices whose destroy hook `controller.destroy()` invokes
through `config.scenes.forEach(scene => scene.destroy?.())`. -/
def controllerDestroyHooks (scenes : List Scene) : List ℕ :=
  scenes.enum.filterMap fun p => if p.2.destroyHook then some p.1 else none

/-- `Pointer.destroy()`: `pause()` detaches the listeners, `removeEffect()`
destroys the controller only when one is wired (`this.effect && ...`) and
nulls it, then each pending frame handle is cancelled when set
(`this._nextTick && cancelAnimationFrame(...)`, likewise for the
transition frame handle). Returns the new state, the cancelled handles, and the
scene indices whose destroy hooks ran. -/
def pointerDestroy (s : LifecycleState) :
    Except JsError (LifecycleState × List ℕ × List ℕ) :=
  let hooks := match s.effect with
    | some scenes => controllerDestroyHooks scenes
    | none => []
  .ok ({ effect := none
         listening := false
         nextTick := s.nextTick
         nextTransitionTick := s.nextTransitionTick },
    s.nextTick.toList ++ s.nextTransitionTick.toList, hooks)

/-- C8. `destroy()` never throws in any state — before `start()` and when
called twice included — cancels every pending frame handle (throttled tick
and transition frame), leaves the effect pipeline torn down
(`effect = none`), invokes the destroy hook of each scene when a controller
was wired, and a second `destroy()` reaches the same state without
re-running scene hooks. -/
theorem C8_destroy_releases_everything (s : LifecycleState) :
    ∃ r, pointerDestroy s = .ok r ∧
      r.1.effect = none ∧
      r.1.listening = false ∧
      r.2.1 = s.nextTick.toList ++ s.nextTransitionTick.toList ∧
      (∀ id1, s.nextTick = some id1 → id1 ∈ r.2.1) ∧
      (∀ id2, s.nextTransitionTick = some id2 → id2 ∈ r.2.1) ∧
      (s.effect = none → r.2.2 = []) ∧
      (∀ scenes, s.effect = some scenes → r.2.2 = controllerDestroyHooks scenes) ∧
      ∃ r2, pointerDestroy r.1 = .ok r2 ∧ r2.1 = r.1 ∧ r2.2.2 = [] := by
  refine ⟨_, rfl, rfl, rfl, rfl, ?_, ?_, ?_, ?_, ⟨_, rfl, rfl, rfl⟩⟩
  · intro id1 h1
    simp [h1, Option.toList]
  · intro id2 h2
    simp [h2, Option.toList]
  · intro hnone
    simp only [hnone]
  · intro scenes hsome
    simp only [hsome]

/-- Concrete lifecycle state of the C8 witness: wired effect with one
scene carrying a destroy hook, both frame handles pending. -/
def lifeW8 : LifecycleState :=
  { effect := some [{ destroyHook := true }]
    listening := true
    nextTick := some 5
    nextTransitionTick := some 7 }

/-- The torn-down state reached from `lifeW8` by `destroy()`. -/
def lifeW8b : LifecycleState :=
  { effect := none
    listening := false
    nextTick := some 5
    nextTransitionTick := some 7 }

theorem C8_witness :
    pointerDestroy lifeW8 = .ok (lifeW8b, [5, 7], [0]) ∧
    pointerDestroy lifeW8b = .ok (lifeW8b, [5, 7], []) := by
  have h := C8_destroy_releases_everything lifeW8
  exact ⟨rfl, rfl⟩

end Kuliso
